import Mathlib

/-!
Verification development for the betatips backend (a sports-tips CRUD
service).  The repository contains two generations of the backend:

* `server.js` — a monolithic Express app with its own inline mongoose
  `User`/`Game` models and route handlers (`server*` definitions below);
* a router-based app — `src/unnamed/part_000` (auth routes),
  `src/unnamed/part_001` (admin routes), `src/unnamed/part_002` (app entry
  with the default-admin bootstrap), `src/routes/games.js`,
  `src/routes/community.js`, `src/middleware/isAdmin.js`
  (`router*` / `admin*` / `community*` definitions below).

The router app's `models/User.js` is not among the source files; the fields
it must carry (`isActive`, `vipStartDate`, `vipExpiryDate`, `transactionId`,
the pre-save password hashing and `comparePassword`) are modelled from the
spec (spec §3, §4.1) and are marked `Modelled from the spec:` where used.
Both apps talk to the same kind of user document, so one `User` structure
carries the union of the fields; a handler only reads and writes the fields
its source mentions.

Machine conventions: timestamps are naturals (milliseconds since the epoch),
the database is a list of records, `findByIdAndUpdate` is an atomic
single-document update, and bcrypt is modelled as a deterministic opaque tag
(`"bcrypt$" ++ plain`) — no claim depends on salting, only on the hash being
distinct from the plaintext and on equality-of-hashes deciding verification.
-/

/-- Account record: union of the `server.js` inline User model
(`username/email/password/hasPaid/isAdmin/isBlocked/needsPasswordChange/
paymentDate/createdAt`, server.js lines 87–97) and the router app's user
fields.  Modelled from the spec: `isActive` (default true), `vipStartDate`,
`vipExpiryDate`, `transactionId` (default null) come from the missing
`models/User.js`, per spec §3. -/
structure User where
  id : Nat
  username : String
  email : String
  /-- the stored credential hash (never a plaintext in normal operation) -/
  password : String
  hasPaid : Bool := false
  isAdmin : Bool := false
  isBlocked : Bool := false
  needsPasswordChange : Bool := false
  isActive : Bool := true
  paymentDate : Option Nat := none
  vipStartDate : Option Nat := none
  vipExpiryDate : Option Nat := none
  transactionId : Option String := none
  createdAt : Nat := 0
deriving Repr, DecidableEq

/-- Modelled from the spec: bcrypt hashing (spec §4.1), deterministic here;
the embedding only needs that the hash is an opaque transform distinct from
its input and that verification is equality of hashes. -/
def bcryptHash (plain : String) : String := "bcrypt$" ++ plain

/-- Modelled from the spec: `user.comparePassword(plain)` of the missing
`models/User.js` — recompute and compare (spec §4.1 `verify`). -/
def User.comparePassword (u : User) (plain : String) : Bool :=
  bcryptHash plain == u.password

/-- `.select('-password')` projection: every stored field but the hash. -/
structure UserView where
  id : Nat
  username : String
  email : String
  hasPaid : Bool
  isAdmin : Bool
  isBlocked : Bool
  needsPasswordChange : Bool
  isActive : Bool
  paymentDate : Option Nat
  vipStartDate : Option Nat
  vipExpiryDate : Option Nat
  transactionId : Option String
  createdAt : Nat
deriving Repr, DecidableEq

def User.toView (u : User) : UserView :=
  { id := u.id, username := u.username, email := u.email, hasPaid := u.hasPaid
    isAdmin := u.isAdmin, isBlocked := u.isBlocked
    needsPasswordChange := u.needsPasswordChange, isActive := u.isActive
    paymentDate := u.paymentDate, vipStartDate := u.vipStartDate
    vipExpiryDate := u.vipExpiryDate, transactionId := u.transactionId
    createdAt := u.createdAt }

abbrev Db := List User

/-- `User.findById` -/
def findById (db : Db) (uid : Nat) : Option User :=
  db.find? (fun u => u.id == uid)

/-- `User.findOne({ username })` -/
def findByUsername (db : Db) (name : String) : Option User :=
  db.find? (fun u => u.username == name)

/-- `User.findByIdAndUpdate(uid, fields)` — atomic single-document update;
documents with a different id are untouched. -/
def findByIdAndUpdate (db : Db) (uid : Nat) (f : User → User) : Db :=
  db.map (fun u => if u.id == uid then f u else u)

/-- An HTTP JSON response: `ok status body` for the 2xx branch,
`err status message` for an error `res.status(s).json({message})`. -/
inductive Resp (α : Type) where
  | ok (status : Nat) (body : α)
  | err (status : Nat) (message : String)
deriving Repr, DecidableEq

/-- JS truthiness of an optional string body field (`!x` is true for a
missing field and for the empty string). -/
def jsFalsyStr : Option String → Bool
  | none => true
  | some s => s.isEmpty

/-- Game document of the `server.js` inline model (lines 99–109). -/
structure SGame where
  id : Nat
  homeTeam : String
  awayTeam : String
  league : String
  prediction : String
  odds : String
  gameTime : Nat
  status : String := "pending"
  isVip : Bool := false
  createdAt : Nat := 0
deriving Repr, DecidableEq

/-- Game document of the router app (`models/Game`, the schema at
server.js lines 657–711, used by `src/routes/games.js`).  `result` is the
optional `'win' | 'loss'` field; `postedBy` is required by the schema but
the create route never sets it, hence optional here. -/
structure RGame where
  id : Nat
  homeTeam : String
  awayTeam : String
  prediction : String
  odds : Rat
  category : String
  matchTime : Nat
  result : Option String := none
  postedBy : Option Nat := none
deriving Repr, DecidableEq

/-- Insertion into a list sorted by the boolean relation `le`. -/
def insertByLE {α : Type} (le : α → α → Bool) (a : α) : List α → List α
  | [] => [a]
  | b :: bs => if le a b then a :: b :: bs else b :: insertByLE le a bs

/-- Insertion sort by the boolean relation `le`; stands in for mongoose
`.sort(...)` — only the comparator matters to the claims. -/
def sortByLE {α : Type} (le : α → α → Bool) : List α → List α
  | [] => []
  | a :: as => insertByLE le a (sortByLE le as)

/-- `.sort({ createdAt: -1 })` on server.js games. -/
def sortSGamesByCreatedDesc : List SGame → List SGame :=
  sortByLE (fun a b => b.createdAt ≤ a.createdAt)

/-- `.sort({ matchTime: -1 })` on router games. -/
def sortRGamesByMatchDesc : List RGame → List RGame :=
  sortByLE (fun a b => b.matchTime ≤ a.matchTime)

/-- `.sort({ createdAt: -1 })` on users. -/
def sortUsersByCreatedDesc : Db → Db :=
  sortByLE (fun a b => b.createdAt ≤ a.createdAt)

/-- The JWT payload both apps sign (`{userId, ...}`; the router app embeds
`isAdmin`, server.js embeds the username — only identity matters here). -/
structure TokenPayload where
  userId : Nat
  isAdmin : Bool
deriving Repr, DecidableEq

/-- The outcome of `jwt.verify` on the presented Authorization header. -/
inductive TokenVerify where
  | invalid
  | valid (payload : TokenPayload)
deriving Repr, DecidableEq

/-- `authenticateToken` middleware (server.js lines 127–142): consults only
the token — no account flag (`isBlocked`, `isActive`) is ever read here. -/
def authenticateToken (header : Option TokenVerify) : Resp TokenPayload :=
  match header with
  | none => .err 401 "Access token required"
  | some .invalid => .err 403 "Invalid or expired token"
  | some (.valid p) => .ok 200 p

/-! ### server.js auth routes -/

/-- `POST /api/auth/register` (server.js lines 159–206).  Duplicate check on
email or username; the created document takes the inline model's defaults
(the server.js model has no `isActive`/VIP-date fields, so this record keeps
the structure defaults for them). -/
def serverRegister (db : Db) (newId : Nat) (username email password : String)
    (now : Nat) : Resp User × Db :=
  match db.find? (fun u => u.email == email || u.username == username) with
  | some _ => (.err 400 "User already exists", db)
  | none =>
    let user : User :=
      { id := newId, username := username, email := email
        password := bcryptHash password, createdAt := now }
    (.ok 201 user, db ++ [user])

/-- `POST /api/auth/login` (server.js lines 208–246): unknown username and
password mismatch both answer 400 "Invalid credentials"; no `isActive`
check exists in this app.  The 200 body carries the logged-in user (the
real response wraps a token and a projection of this record). -/
def serverLogin (db : Db) (username password : String) : Resp User :=
  match findByUsername db username with
  | none => .err 400 "Invalid credentials"
  | some user =>
    if !(bcryptHash password == user.password) then
      .err 400 "Invalid credentials"
    else
      .ok 200 user

/-- `PATCH /api/auth/change-password` (server.js lines 261–289).  Verifies
the current password and stores the new hash — there is no length check on
`newPassword` in this handler. -/
def serverChangePassword (db : Db) (userId : Nat)
    (currentPassword newPassword : String) : Resp String × Db :=
  match findById db userId with
  | none => (.err 404 "User not found", db)
  | some user =>
    if !(bcryptHash currentPassword == user.password) then
      (.err 400 "Current password is incorrect", db)
    else
      (.ok 200 "Password changed successfully",
       findByIdAndUpdate db userId
         (fun u => { u with password := bcryptHash newPassword }))

/-! ### router-app auth routes (src/unnamed/part_000) -/

/-- `POST /register` (part_000 lines 10–59).  Modelled from the spec: the
missing `models/User.js` pre-save hook hashes the password; the other
fields default per spec §3. -/
def routerRegister (db : Db) (newId : Nat) (username email password : String)
    (now : Nat) : Resp User × Db :=
  match db.find? (fun u => u.email == email || u.username == username) with
  | some _ => (.err 400 "User already exists", db)
  | none =>
    let user : User :=
      { id := newId, username := username, email := email
        password := bcryptHash password, isActive := true, createdAt := now }
    (.ok 201 user, db ++ [user])

/-- `POST /login` (part_000 lines 62–117): unknown username → 400
"Invalid credentials"; then the `isActive` gate (403, before the password is
even checked); then password mismatch → 400 "Invalid credentials". -/
def routerLogin (db : Db) (username password : String) : Resp User :=
  match findByUsername db username with
  | none => .err 400 "Invalid credentials"
  | some user =>
    if !user.isActive then
      .err 403 "Account has been deactivated. Contact support."
    else if !(user.comparePassword password) then
      .err 400 "Invalid credentials"
    else
      .ok 200 user

/-- `GET /me` (part_000 lines 120–190): denies a missing or deactivated
account; `isBlocked` is never consulted. -/
def routerMe (db : Db) (userId : Nat) : Resp UserView :=
  match findById db userId with
  | none => .err 403 "Account deactivated"
  | some user =>
    if !user.isActive then .err 403 "Account deactivated"
    else .ok 200 user.toView

/-- `PATCH /change-password` (part_000 lines 132–169): required-fields check
(JS truthiness, so a missing or empty field), then the minimum-length check
on the new password, then lookup, then current-password verification, then
the re-hash (the pre-save hook of the missing model, modelled from the
spec) — every failing branch leaves the database untouched. -/
def routerChangePassword (db : Db) (userId : Nat)
    (currentPassword newPassword : Option String) : Resp String × Db :=
  if jsFalsyStr currentPassword || jsFalsyStr newPassword then
    (.err 400 "Current password and new password are required", db)
  else
    let cur := currentPassword.getD ""
    let newPw := newPassword.getD ""
    if newPw.length < 6 then
      (.err 400 "New password must be at least 6 characters", db)
    else
      match findById db userId with
      | none => (.err 404 "User not found", db)
      | some user =>
        if !(user.comparePassword cur) then
          (.err 400 "Current password is incorrect", db)
        else
          (.ok 200 "Password changed successfully",
           findByIdAndUpdate db userId
             (fun u => { u with password := bcryptHash newPw }))

/-! ### server.js game and content routes -/

/-- `GET /api/games` (server.js lines 292–310): a paying or admin caller
gets every game, anyone else gets the non-VIP subset — a 200 in both
branches, never a denial.  `isBlocked` is not consulted.  A missing user
record makes `user.hasPaid` throw, which the catch turns into the generic
500. -/
def serverGames (db : Db) (games : List SGame) (userId : Nat) :
    Resp (List SGame) :=
  match findById db userId with
  | none => .err 500 "Server error"
  | some user =>
    if user.hasPaid || user.isAdmin then
      .ok 200 (sortSGamesByCreatedDesc games)
    else
      .ok 200 (sortSGamesByCreatedDesc (games.filter (fun g => !g.isVip)))

/-- `PATCH /api/user/payment` (server.js lines 358–370): sets the caller's
own `hasPaid` and `paymentDate` — no admin check, no payment verification,
and no VIP date is written. -/
def serverPayment (db : Db) (userId now : Nat) : Resp String × Db :=
  match findById db userId with
  | none => (.err 500 "Server error", db)
  | some _ =>
    (.ok 200 "Payment status updated successfully",
     findByIdAndUpdate db userId
       (fun u => { u with hasPaid := true, paymentDate := some now }))

/-- Request body of `POST /api/games` (`new Game(req.body)`). -/
structure SGameBody where
  homeTeam : Option String := none
  awayTeam : Option String := none
  league : Option String := none
  prediction : Option String := none
  odds : Option String := none
  gameTime : Option Nat := none
  status : Option String := none
  isVip : Option Bool := none
deriving Repr, DecidableEq

/-- mongoose `required: true` on a String path: fails on a missing field and
on the empty string. -/
def requiredStr : Option String → Bool
  | none => false
  | some s => !s.isEmpty

/-- mongoose enum validation of the optional `status` path. -/
def validSStatus : Option String → Bool
  | none => true
  | some s => ["pending", "won", "lost"].contains s

/-- `POST /api/games` (server.js lines 312–326): inline admin check, then
`new Game(req.body).save()`; a schema validation failure is caught by the
generic catch as a 500. -/
def serverCreateGame (db : Db) (games : List SGame) (userId newId : Nat)
    (b : SGameBody) (now : Nat) : Resp SGame × List SGame :=
  match findById db userId with
  | none => (.err 500 "Server error", games)
  | some user =>
    if !user.isAdmin then (.err 403 "Admin access required", games)
    else if requiredStr b.homeTeam && requiredStr b.awayTeam &&
            requiredStr b.league && requiredStr b.prediction &&
            requiredStr b.odds && b.gameTime.isSome && validSStatus b.status then
      let g : SGame :=
        { id := newId, homeTeam := b.homeTeam.getD ""
          awayTeam := b.awayTeam.getD "", league := b.league.getD ""
          prediction := b.prediction.getD "", odds := b.odds.getD ""
          gameTime := b.gameTime.getD 0, status := b.status.getD "pending"
          isVip := b.isVip.getD false, createdAt := now }
      (.ok 201 g, games ++ [g])
    else (.err 500 "Server error", games)

/-- `DELETE /api/games/:id` (server.js lines 384–397): inline admin check;
`findByIdAndDelete` result is not checked, so the 200 comes back whether or
not the id existed. -/
def serverDeleteGame (db : Db) (games : List SGame) (userId gameId : Nat) :
    Resp String × List SGame :=
  match findById db userId with
  | none => (.err 500 "Server error", games)
  | some user =>
    if !user.isAdmin then (.err 403 "Admin access required", games)
    else (.ok 200 "Game deleted successfully",
          games.filter (fun g => g.id != gameId))

/-- `PATCH /api/games/:id/result` (server.js lines 400–428): inline admin
check first; after it the handler reads `result` before its `const`
declaration (line 408 before line 411), a ReferenceError the catch turns
into the generic 500 — so the admin branch always answers 500 and never
reaches the body. -/
def serverUpdateResult (db : Db) (games : List SGame) (userId gameId : Nat)
    (body : Option String) : Resp SGame × List SGame :=
  match findById db userId with
  | none => (.err 500 "Server error", games)
  | some user =>
    if !user.isAdmin then (.err 403 "Admin access required", games)
    else
      let _ := (gameId, body)
      (.err 500 "Server error", games)

/-- `GET /api/admin/users` (server.js lines 476–493). -/
def serverListUsers (db : Db) (userId : Nat) : Resp (List UserView) :=
  match findById db userId with
  | none => .err 500 "Server error fetching users"
  | some user =>
    if !user.isAdmin then .err 403 "Admin access required"
    else .ok 200 ((sortUsersByCreatedDesc db).map User.toView)

/-- `PATCH /api/admin/users/:id/block` (server.js lines 496–519): admin
check, then set `isBlocked` to the body value. -/
def serverBlockUser (db : Db) (adminId targetId : Nat) (blocked : Bool) :
    Resp UserView × Db :=
  match findById db adminId with
  | none => (.err 500 "Server error", db)
  | some admin =>
    if !admin.isAdmin then (.err 403 "Admin access required", db)
    else
      let upd : User → User := fun u => { u with isBlocked := blocked }
      match findById db targetId with
      | none => (.err 404 "User not found", db)
      | some target =>
        (.ok 200 (upd target).toView, findByIdAndUpdate db targetId upd)

/-- `PATCH /api/admin/users/:id/vip` (server.js lines 522–548): admin
check, then set `hasPaid` from the body and `paymentDate` to now or null —
no VIP date is touched by this app. -/
def serverVipUpdate (db : Db) (adminId targetId : Nat) (hasPaid : Bool)
    (now : Nat) : Resp UserView × Db :=
  match findById db adminId with
  | none => (.err 500 "Server error", db)
  | some admin =>
    if !admin.isAdmin then (.err 403 "Admin access required", db)
    else
      let upd : User → User := fun u =>
        { u with hasPaid := hasPaid
                 paymentDate := if hasPaid then some now else none }
      match findById db targetId with
      | none => (.err 404 "User not found", db)
      | some target =>
        (.ok 200 (upd target).toView, findByIdAndUpdate db targetId upd)

/-- Body of the temp-password response: the one response that carries the
plaintext code, next to the `-password` projection of the updated target. -/
structure TempPwBody where
  message : String
  tempPassword : String
  user : UserView
deriving Repr, DecidableEq

/-- `PATCH /api/admin/users/:id/generate-temp-password` (server.js lines
551–587): admin check; `Math.floor(100000 + Math.random() * 900000)` is
modelled by `100000 + rand % 900000` over an arbitrary `rand` (the same
range, 100000–999999); the code is bcrypt-hashed into `password`,
`needsPasswordChange` is raised, and the plaintext goes back only in this
response. -/
def serverGenerateTempPassword (db : Db) (adminId targetId rand : Nat) :
    Resp TempPwBody × Db :=
  match findById db adminId with
  | none => (.err 500 "Server error", db)
  | some admin =>
    if !admin.isAdmin then (.err 403 "Admin access required", db)
    else
      let tempPassword := toString (100000 + rand % 900000)
      let hashed := bcryptHash tempPassword
      let upd : User → User := fun u =>
        { u with password := hashed, needsPasswordChange := true }
      match findById db targetId with
      | none => (.err 404 "User not found", db)
      | some target =>
        (.ok 200 { message := "Temporary password generated successfully"
                   tempPassword := tempPassword
                   user := (upd target).toView },
         findByIdAndUpdate db targetId upd)

/-! ### router-app admin routes (middleware/isAdmin.js + src/unnamed/part_001) -/

/-- `isAdmin` middleware (src/middleware/isAdmin.js): 403 for a missing
record or a non-admin; routes behind it run only for admins. -/
def isAdminGate {ρ : Type} (db : Db) (userId : Nat) (denied : ρ) (k : User → ρ) : ρ :=
  match findById db userId with
  | none => denied
  | some user => if !user.isAdmin then denied else k user

/-- `GET /users` (part_001 lines 9–23), behind `auth, isAdmin`. -/
def adminListUsers (db : Db) (userId : Nat) : Resp (List UserView) :=
  isAdminGate db userId (.err 403 "Access denied. Admin only.") fun _ =>
    .ok 200 ((sortUsersByCreatedDesc db).map User.toView)

/-- `PATCH /users/:userId/vip` (part_001 lines 26–70), behind `auth,
isAdmin`: granting sets `hasPaid` from the body together with both VIP dates
(expiry 30 days out) and a transaction id; removing clears all three. -/
def adminVipUpdate (db : Db) (adminId targetId : Nat) (hasPaid : Bool)
    (now : Nat) : Resp UserView × Db :=
  isAdminGate db adminId (.err 403 "Access denied. Admin only.", db) fun _ =>
    let upd : User → User := fun u =>
      if hasPaid then
        { u with hasPaid := hasPaid, vipStartDate := some now
                 vipExpiryDate := some (now + 30 * 24 * 60 * 60 * 1000)
                 transactionId := some ("ADMIN_GRANTED_" ++ toString now) }
      else
        { u with hasPaid := hasPaid, vipStartDate := none
                 vipExpiryDate := none, transactionId := none }
    match findById db targetId with
    | none => (.err 404 "User not found", db)
    | some target =>
      (.ok 200 (upd target).toView, findByIdAndUpdate db targetId upd)

/-- Body of the `GET /stats` response (part_001 lines 73–92).  The source
formats `conversionRate` with `.toFixed(1)`; the rate is carried exactly as
a rational here, the decimal formatting is not modelled. -/
structure AdminStats where
  totalUsers : Nat
  vipUsers : Nat
  freeUsers : Nat
  conversionRate : Rat
deriving Repr, DecidableEq

/-- `GET /stats` (part_001 lines 73–92), behind `auth, isAdmin`. -/
def adminStats (db : Db) (userId : Nat) : Resp AdminStats :=
  isAdminGate db userId (.err 403 "Access denied. Admin only.") fun _ =>
    let total := db.length
    let vip := (db.filter (fun u => u.hasPaid)).length
    .ok 200 { totalUsers := total, vipUsers := vip, freeUsers := total - vip
              conversionRate :=
                if total > 0 then (vip : Rat) / (total : Rat) * 100 else 0 }

/-! ### router-app game routes (src/routes/games.js) -/

/-- `GET /all` (routes/games.js lines 63–75): the comment says "(for
admin)" but the route is behind `auth` only — it never looks at the caller
and returns every game, VIP category included, to any authenticated user. -/
def routerGetAllGames (games : List RGame) : Resp (List RGame) :=
  .ok 200 (sortRGamesByMatchDesc games)

/-- Request body of `POST /` on routes/games.js. -/
structure RGameBody where
  homeTeam : Option String := none
  awayTeam : Option String := none
  prediction : Option String := none
  odds : Option Rat := none
  category : Option String := none
  matchTime : Option Nat := none
deriving Repr, DecidableEq

/-- JS truthiness of an optional numeric body field (missing or 0 is falsy). -/
def jsFalsyNum : Option Rat → Bool
  | none => true
  | some q => q == 0

/-- JS truthiness of an optional date body field. -/
def jsFalsyNat : Option Nat → Bool
  | none => true
  | some n => n == 0

def validCategories : List String :=
  ["All Tips", "Sure Tips", "Over/Under Tips", "Bonus", "VIP Tips"]

/-- `POST /` (routes/games.js lines 78–131), behind `auth, isAdmin`:
required-fields check (JS truthiness), odds must exceed 1.0, category must
be one of the enum; the constructed game never sets the schema-required
`postedBy`, so `save()` fails mongoose validation and the catch answers 400
"Validation error" — the success branch is unreachable in the source. -/
def routerCreateGame (db : Db) (games : List RGame) (userId : Nat)
    (b : RGameBody) : Resp RGame × List RGame :=
  isAdminGate db userId (.err 403 "Access denied. Admin only.", games) fun _ =>
    if jsFalsyStr b.homeTeam || jsFalsyStr b.awayTeam ||
       jsFalsyStr b.prediction || jsFalsyNum b.odds ||
       jsFalsyStr b.category || jsFalsyNat b.matchTime then
      (.err 400 "All fields are required", games)
    else if b.odds.getD 0 ≤ 1 then
      (.err 400 "Odds must be greater than 1.0", games)
    else if !(validCategories.contains (b.category.getD "")) then
      (.err 400 "Invalid category", games)
    else
      (.err 400 "Validation error", games)

/-- `PATCH /:id/result` (routes/games.js lines 134–166), behind `auth,
isAdmin`: the result must be `win` or `loss` (a missing body field is not),
then the one game is updated. -/
def routerUpdateResult (db : Db) (games : List RGame) (userId gameId : Nat)
    (result : Option String) : Resp RGame × List RGame :=
  isAdminGate db userId (.err 403 "Access denied. Admin only.", games) fun _ =>
    if !(["win", "loss"].contains (result.getD "")) then
      (.err 400 "Invalid result. Must be \"win\" or \"loss\"", games)
    else
      match games.find? (fun g => g.id == gameId) with
      | none => (.err 404 "Game not found", games)
      | some g =>
        (.ok 200 { g with result := result },
         games.map (fun g2 => if g2.id == gameId then { g2 with result := result } else g2))

/-- `DELETE /:id` (routes/games.js lines 169–193), behind `auth, isAdmin`. -/
def routerDeleteGame (db : Db) (games : List RGame) (userId gameId : Nat) :
    Resp String × List RGame :=
  isAdminGate db userId (.err 403 "Access denied. Admin only.", games) fun _ =>
    match games.find? (fun g => g.id == gameId) with
    | none => (.err 404 "Game not found", games)
    | some _ =>
      (.ok 200 "Game deleted successfully", games.filter (fun g => g.id != gameId))

/-- Body of `GET /stats/summary` (routes/games.js lines 196–244).  The
win-rate is carried exactly as a rational (`toFixed(1)` formatting and the
per-category aggregation are not read by any claim and are not modelled). -/
structure GamesStats where
  totalGames : Nat
  completedGames : Nat
  pendingGames : Nat
  wonGames : Nat
  lostGames : Nat
  winRate : Rat
deriving Repr, DecidableEq

/-- `GET /stats/summary` (routes/games.js lines 196–244), behind `auth,
isAdmin`. -/
def routerGamesStats (db : Db) (games : List RGame) (userId : Nat) :
    Resp GamesStats :=
  isAdminGate db userId (.err 403 "Access denied. Admin only.") fun _ =>
    let total := games.length
    let completed := (games.filter (fun g => g.result.isSome)).length
    let won := (games.filter (fun g => g.result == some "win")).length
    let lost := (games.filter (fun g => g.result == some "loss")).length
    .ok 200 { totalGames := total, completedGames := completed
              pendingGames := total - completed, wonGames := won
              lostGames := lost
              winRate :=
                if completed > 0 then (won : Rat) / (completed : Rat) * 100
                else 0 }

/-! ### community routes (src/routes/community.js) -/

/-- Post document of the community schema (replies subdocuments are read by
no claim and are not modelled). -/
structure CPost where
  id : Nat
  content : String
  author : Nat
  createdAt : Nat := 0
deriving Repr, DecidableEq

/-- `DELETE /posts/:postId` (community.js lines 112–133): the inline admin
check runs before the post lookup, so a non-admin is denied whatever the
post id; a missing caller record makes `user.isAdmin` throw into the
catch. -/
def communityDeletePost (db : Db) (posts : List CPost) (userId postId : Nat) :
    Resp String × List CPost :=
  match findById db userId with
  | none => (.err 500 "Error deleting post", posts)
  | some user =>
    if !user.isAdmin then (.err 403 "Access denied. Admin only.", posts)
    else
      match posts.find? (fun p => p.id == postId) with
      | none => (.err 404 "Post not found", posts)
      | some _ =>
        (.ok 200 "Post deleted successfully",
         posts.filter (fun p => p.id != postId))

/-! ### bootstrap (src/unnamed/part_002 and src/createAdmin.js) -/

/-- The record `createDefaultAdmin` saves (part_002 lines 42–49); the
password goes through the pre-save hash (modelled from the spec, the hook
lives in the missing `models/User.js`). -/
def defaultAdminUser (newId now : Nat) : User :=
  { id := newId, username := "admin", email := "admin@betatips.com.ng"
    password := bcryptHash "admin123", isAdmin := true, hasPaid := true
    isActive := true, createdAt := now }

/-- `createDefaultAdmin` (part_002 lines 33–71), run once when the MongoDB
connection opens: if no account named `admin` exists one is created with
the fixed flags and password; otherwise the function only logs and the
store is untouched. -/
def createDefaultAdmin (db : Db) (newId now : Nat) : Db :=
  match findByUsername db "admin" with
  | some _ => db
  | none => db ++ [defaultAdminUser newId now]

/-- `createAdmin` of the standalone maintenance script `src/createAdmin.js`
(not run at server startup; an operator runs it by hand): unlike the
startup bootstrap it deletes an existing `admin` account and recreates it
(with email `admin@example.com` and without the `isActive` field). -/
def createAdminScript (db : Db) (newId now : Nat) : Db :=
  let remaining :=
    match findByUsername db "admin" with
    | some _ => db.filter (fun u => u.username != "admin")
    | none => db
  remaining ++
    [{ id := newId, username := "admin", email := "admin@example.com"
       password := bcryptHash "admin123", isAdmin := true, hasPaid := true
       createdAt := now }]

/-! ### invariants and store lemmas -/

/-- The VIP-date invariant of spec §3 / §8: a paid account carries an
expiry date, an unpaid account carries neither VIP date. -/
def vipDateInvariant (u : User) : Prop :=
  (u.hasPaid = true → u.vipExpiryDate ≠ none) ∧
  (u.hasPaid = false → u.vipStartDate = none ∧ u.vipExpiryDate = none)

instance (u : User) : Decidable (vipDateInvariant u) := by
  unfold vipDateInvariant; infer_instance

/-- A store holds only bcrypt outputs, never a plaintext credential. -/
def HashedDb (db : Db) : Prop :=
  ∀ u ∈ db, ∃ p, u.password = bcryptHash p

theorem bcryptHash_ne (s : String) : bcryptHash s ≠ s := by
  intro h
  have hlen := congrArg String.length h
  have h7 : ("bcrypt$" : String).length = 7 := rfl
  rw [bcryptHash, String.length_append, h7] at hlen
  omega

theorem findById_update_self {db : Db} {uid : Nat} {f : User → User}
    (hf : ∀ v, (f v).id = v.id) {u : User} (h : findById db uid = some u) :
    findById (findByIdAndUpdate db uid f) uid = some (f u) := by
  induction db generalizing u with
  | nil => simp [findById] at h
  | cons a db ih =>
    simp only [findById, findByIdAndUpdate] at h ih ⊢
    by_cases ha : a.id = uid
    · have hb : (a.id == uid) = true := by simp [ha]
      have hfb : ((f a).id == uid) = true := by simp [hf a, ha]
      simp only [List.map_cons, List.find?_cons, hb, if_true, hfb] at h ⊢
      injection h with h
      rw [h]
    · have hb : (a.id == uid) = false := by simp [ha]
      simp only [List.map_cons, List.find?_cons, hb, if_false, Bool.false_eq_true,
        if_neg] at h ⊢
      exact ih h

theorem mem_findByIdAndUpdate {db : Db} {uid : Nat} {f : User → User}
    {u' : User} (h : u' ∈ findByIdAndUpdate db uid f) :
    u' ∈ db ∨ ∃ v, v ∈ db ∧ u' = f v := by
  rcases List.mem_map.mp h with ⟨a, hadb, hae⟩
  by_cases ha : a.id = uid
  · right
    refine ⟨a, hadb, ?_⟩
    rw [← hae, if_pos (by simp [ha] : (a.id == uid) = true)]
  · left
    rw [← hae, if_neg (by simp [ha])]
    exact hadb

/-- Error/success discriminator of a response. -/
def Resp.isErr {α : Type} : Resp α → Bool
  | .ok _ _ => false
  | .err _ _ => true

/-- HTTP status of a response. -/
def Resp.statusCode {α : Type} : Resp α → Nat
  | .ok s _ => s
  | .err s _ => s

/-! ### concrete fixtures used by counterexamples and witnesses -/

/-- a plain registered user: not admin, not paid, active, unblocked. -/
def freeUser : User :=
  { id := 1, username := "fan", email := "fan@x.com"
    password := bcryptHash "pw123456" }

/-- an administrator account. -/
def adminUser : User :=
  { id := 2, username := "root", email := "root@x.com"
    password := bcryptHash "rootpw99", isAdmin := true }

/-- a deactivated user whose password is `pw123456`. -/
def inactiveBob : User :=
  { id := 3, username := "bob", email := "bob@x.com"
    password := bcryptHash "pw123456", isActive := false }

/-- a blocked but active, unpaid, non-admin user. -/
def blockedUser : User :=
  { id := 4, username := "troll", email := "troll@x.com"
    password := bcryptHash "pw123456", isBlocked := true }

/-- a router-app game in the VIP category. -/
def vipTipsGame : RGame :=
  { id := 9, homeTeam := "A", awayTeam := "B", prediction := "over 2.5"
    odds := 2, category := "VIP Tips", matchTime := 10 }

/-! ### C1 -/

/-- C1 fails as stated: starting from a fresh registration, one call to the
payment-status update (`PATCH /api/user/payment`) leaves the account with
`hasPaid = true` and `vipExpiryDate = null`, violating the claimed
invariant on a state reachable through the claim's own operation list. -/
theorem c1_counterexample :
    findById (serverPayment
        (serverRegister [] 1 "alice" "a@x.com" "pw123456" 50).2 1 60).2 1
      = some { id := 1, username := "alice", email := "a@x.com"
               password := bcryptHash "pw123456", hasPaid := true
               paymentDate := some 60, createdAt := 50 } ∧
    ¬ vipDateInvariant
        { id := 1, username := "alice", email := "a@x.com"
          password := bcryptHash "pw123456", hasPaid := true
          paymentDate := some 60, createdAt := 50 } := by
  constructor
  · decide
  · decide

/-- C1 amended: the VIP-date invariant (`hasPaid = true → expiry set`,
`hasPaid = false → both dates null`) is established by registration and
preserved by the router admin VIP grant/revoke (part_001); it is *not*
preserved by the payment-status update (see the counterexample; the
server.js VIP route likewise writes `hasPaid` without any VIP date). -/
theorem c1_amended_vip_invariant (db : Db) :
    (∀ newId username email password now,
      (∀ u ∈ db, vipDateInvariant u) →
      ∀ u2 ∈ (routerRegister db newId username email password now).2,
        vipDateInvariant u2) ∧
    (∀ adminId targetId hasPaid now,
      (∀ u ∈ db, vipDateInvariant u) →
      ∀ u2 ∈ (adminVipUpdate db adminId targetId hasPaid now).2,
        vipDateInvariant u2) := by
  constructor
  · intro newId username email password now hdb u2 hu2
    cases hdup : db.find? (fun u => u.email == email || u.username == username) with
    | some w => rw [routerRegister, hdup] at hu2; exact hdb u2 hu2
    | none =>
      rw [routerRegister, hdup] at hu2
      rcases List.mem_append.mp hu2 with hin | hnew
      · exact hdb u2 hin
      · rcases List.mem_singleton.mp hnew with rfl
        exact ⟨by simp, by simp⟩
  · intro adminId targetId hasPaid now hdb u2 hu2
    cases hadm : findById db adminId with
    | none => rw [adminVipUpdate, isAdminGate, hadm] at hu2; exact hdb u2 hu2
    | some admin =>
      by_cases hia : admin.isAdmin
      · cases htgt : findById db targetId with
        | none =>
          rw [adminVipUpdate, isAdminGate, hadm] at hu2
          simp only [hia, Bool.not_true, if_false, htgt] at hu2
          exact hdb u2 hu2
        | some target =>
          rw [adminVipUpdate, isAdminGate, hadm] at hu2
          simp only [hia, Bool.not_true, if_false, htgt] at hu2
          rcases mem_findByIdAndUpdate hu2 with hin | ⟨v, hv, rfl⟩
          · exact hdb u2 hin
          · cases hasPaid <;> exact ⟨by simp, by simp⟩
      · rw [adminVipUpdate, isAdminGate, hadm] at hu2
        simp only [hia, Bool.not_false, if_true] at hu2
        exact hdb u2 hu2

/-- C1 amended, witnessed at a concrete grant by an admin. -/
theorem c1_amended_vip_invariant_witness :
    vipDateInvariant
      { freeUser with
        hasPaid := true
        vipStartDate := some 500
        vipExpiryDate := some (500 + 30 * 24 * 60 * 60 * 1000)
        transactionId := some ("ADMIN_GRANTED_" ++ toString 500) } :=
  (c1_amended_vip_invariant [adminUser, freeUser]).2 2 1 true 500
    (by decide) _ (by decide)

/-! ### C2 -/

/-- C2 fails on the code: no handler consults `isBlocked`.  A blocked (but
active) authenticated user is served exactly like an unblocked one — the
games read answers 200 with the usual list and `GET /me` answers 200 with
the account data; no block-specific denial exists anywhere. -/
theorem c2_blocked_user_not_denied (db : Db) (games : List SGame)
    (userId : Nat) (u : User) (h : findById db userId = some u)
    (hblocked : u.isBlocked = true) (hactive : u.isActive = true)
    (hfree : u.hasPaid = false) (hnadmin : u.isAdmin = false) :
    serverGames db games userId
      = .ok 200 (sortSGamesByCreatedDesc (games.filter (fun g => !g.isVip))) ∧
    routerMe db userId = .ok 200 u.toView := by
  constructor
  · simp [serverGames, h, hfree, hnadmin]
  · simp [routerMe, h, hactive]

/-- C2, evaluated at a concrete blocked user. -/
theorem c2_blocked_user_not_denied_witness :
    serverGames [blockedUser] [] 4
      = .ok 200 (sortSGamesByCreatedDesc (List.filter (fun g => !g.isVip) [])) ∧
    routerMe [blockedUser] 4 = .ok 200 blockedUser.toView :=
  c2_blocked_user_not_denied [blockedUser] [] 4 blockedUser
    (by decide) (by decide) (by decide) (by decide) (by decide)

/-! ### C3 -/

/-- C3 fails as universally stated: for a *deactivated* known account, the
router login answers the 403 deactivation payload before ever checking the
password, while the unknown-username probe gets 400 "Invalid credentials" —
the two payloads differ (and the difference does reveal that `bob`
exists). -/
theorem c3_counterexample :
    routerLogin [inactiveBob] "alice" "whatever" = .err 400 "Invalid credentials" ∧
    routerLogin [inactiveBob] "bob" "wrongpw"
      = .err 403 "Account has been deactivated. Contact support." ∧
    routerLogin [inactiveBob] "alice" "whatever"
      ≠ routerLogin [inactiveBob] "bob" "wrongpw" := by
  refine ⟨by decide, by decide, by decide⟩

/-- C3 amended: the error payloads of unknown-username and wrong-password
logins are identical — unconditionally for the server.js login (which has
no deactivation state), and for the router login provided the known
account is active; both answer 400 "Invalid credentials". -/
theorem c3_amended_login_payloads (db : Db) (u1 p1 u2 p2 : String)
    (usr : User) (h1 : findByUsername db u1 = none)
    (h2 : findByUsername db u2 = some usr)
    (hpw : usr.comparePassword p2 = false) (hact : usr.isActive = true) :
    serverLogin db u1 p1 = .err 400 "Invalid credentials" ∧
    serverLogin db u2 p2 = .err 400 "Invalid credentials" ∧
    routerLogin db u1 p1 = .err 400 "Invalid credentials" ∧
    routerLogin db u2 p2 = .err 400 "Invalid credentials" := by
  rw [User.comparePassword] at hpw
  refine ⟨by simp [serverLogin, h1], by simp [serverLogin, h2, hpw],
    by simp [routerLogin, h1], by simp [routerLogin, h2, hact, User.comparePassword, hpw]⟩

/-- C3 amended, witnessed: unknown `alice` and wrong-password `fan` get the
same payload. -/
theorem c3_amended_login_payloads_witness :
    serverLogin [freeUser] "alice" "xyz" = .err 400 "Invalid credentials" ∧
    serverLogin [freeUser] "fan" "xyz" = .err 400 "Invalid credentials" ∧
    routerLogin [freeUser] "alice" "xyz" = .err 400 "Invalid credentials" ∧
    routerLogin [freeUser] "fan" "xyz" = .err 400 "Invalid credentials" :=
  c3_amended_login_payloads [freeUser] "alice" "xyz" "fan" "xyz" freeUser
    (by decide) (by decide) (by decide) (by decide)

/-! ### C5 -/

/-- C5 fails on the server.js change-password route: it has no length
check, so with the correct current password a 5-character new password is
accepted (200) and the stored hash changes. -/
theorem c5_counterexample :
    (serverChangePassword [freeUser] 1 "pw123456" "12345").1
      = .ok 200 "Password changed successfully" ∧
    findById (serverChangePassword [freeUser] 1 "pw123456" "12345").2 1
      = some { freeUser with password := bcryptHash "12345" } ∧
    bcryptHash "12345" ≠ freeUser.password := by
  refine ⟨by decide, by decide, by decide⟩

/-- C5 amended: the router change-password (part_000) rejects every new
password shorter than 6 characters with a 400 validation error and leaves
the store (hence the credential hash) unchanged; the server.js
change-password route performs no such check (see the counterexample). -/
theorem c5_amended_change_password_short (db : Db) (userId : Nat)
    (currentPassword newPassword : Option String)
    (hshort : (newPassword.getD "").length < 6) :
    (routerChangePassword db userId currentPassword newPassword).1.isErr = true ∧
    (routerChangePassword db userId currentPassword newPassword).1.statusCode = 400 ∧
    (routerChangePassword db userId currentPassword newPassword).2 = db := by
  by_cases hreq : (jsFalsyStr currentPassword || jsFalsyStr newPassword) = true
  · refine ⟨?_, ?_, ?_⟩ <;>
      simp [routerChangePassword, hreq, Resp.isErr, Resp.statusCode]
  · refine ⟨?_, ?_, ?_⟩ <;>
      simp [routerChangePassword, hreq, hshort, Resp.isErr, Resp.statusCode]

/-- C5 amended, witnessed at a 5-character new password. -/
theorem c5_amended_change_password_short_witness :
    (routerChangePassword [freeUser] 1 (some "pw123456") (some "12345")).1.isErr = true ∧
    (routerChangePassword [freeUser] 1 (some "pw123456") (some "12345")).1.statusCode = 400 ∧
    (routerChangePassword [freeUser] 1 (some "pw123456") (some "12345")).2 = [freeUser] :=
  c5_amended_change_password_short [freeUser] 1 (some "pw123456") (some "12345")
    (by decide)

/-! ### C6 -/

/-- C6: a deactivated account logging in through the router login with the
correct username and password is denied 403 with the deactivation message —
never the 400 "Invalid credentials" payload.  (The server.js login has no
`isActive` field in its model, so deactivation exists only in the router
app.) -/
theorem c6_deactivated_login_forbidden (db : Db) (username password : String)
    (u : User) (hu : findByUsername db username = some u)
    (hinactive : u.isActive = false)
    (hpw : u.comparePassword password = true) :
    routerLogin db username password
      = .err 403 "Account has been deactivated. Contact support." ∧
    routerLogin db username password ≠ .err 400 "Invalid credentials" := by
  have hmain : routerLogin db username password
      = .err 403 "Account has been deactivated. Contact support." := by
    simp [routerLogin, hu, hinactive]
  refine ⟨hmain, ?_⟩
  rw [hmain]
  simp

/-- C6, witnessed: `bob` (deactivated) with his correct password. -/
theorem c6_deactivated_login_forbidden_witness :
    routerLogin [inactiveBob] "bob" "pw123456"
      = .err 403 "Account has been deactivated. Contact support." ∧
    routerLogin [inactiveBob] "bob" "pw123456" ≠ .err 400 "Invalid credentials" :=
  c6_deactivated_login_forbidden [inactiveBob] "bob" "pw123456" inactiveBob
    (by decide) (by decide) (by decide)

/-! ### C10 -/

/-- C10: for every authenticated caller — no admin check, no payment
verification — `PATCH /api/user/payment` sets the caller's own `hasPaid`
and `paymentDate`, touches no VIP expiry date, and afterwards the games
read returns the full list (VIP access). -/
theorem c10_payment_grants_vip (db : Db) (userId now : Nat) (u : User)
    (h : findById db userId = some u) :
    (serverPayment db userId now).1
      = .ok 200 "Payment status updated successfully" ∧
    findById (serverPayment db userId now).2 userId
      = some { u with hasPaid := true, paymentDate := some now } ∧
    ({ u with hasPaid := true, paymentDate := some now } : User).vipExpiryDate
      = u.vipExpiryDate ∧
    ∀ games, serverGames (serverPayment db userId now).2 games userId
      = .ok 200 (sortSGamesByCreatedDesc games) := by
  have hupd := findById_update_self
    (f := fun v => { v with hasPaid := true, paymentDate := some now })
    (fun v => rfl) h
  refine ⟨by simp [serverPayment, h], ?_, rfl, ?_⟩
  · simp only [serverPayment, h]
    exact hupd
  · intro games
    simp only [serverPayment, h]
    simp [serverGames, hupd]

/-- C10, witnessed by a non-admin caller: the payment route itself grants
the VIP view. -/
theorem c10_payment_grants_vip_witness :
    (serverPayment [freeUser] 1 777).1
      = .ok 200 "Payment status updated successfully" ∧
    findById (serverPayment [freeUser] 1 777).2 1
      = some { freeUser with hasPaid := true, paymentDate := some 777 } ∧
    ({ freeUser with hasPaid := true, paymentDate := some 777 } : User).vipExpiryDate
      = freeUser.vipExpiryDate ∧
    ∀ games, serverGames (serverPayment [freeUser] 1 777).2 games 1
      = .ok 200 (sortSGamesByCreatedDesc games) :=
  c10_payment_grants_vip [freeUser] 1 777 freeUser (by decide)

/-! ### C7 -/

/-- C7: the server.js games read satisfies the claimed dichotomy exactly
(full sorted list iff `hasPaid || isAdmin`, otherwise the non-VIP subset,
both as 200 results); but the router `GET /all` route — documented
"(for admin)" in its own comment — ignores the caller entirely, so at the
failing input a free caller receives the full list including the VIP-category
game. -/
theorem c7_games_visibility (db : Db) (games : List SGame) (userId : Nat)
    (u : User) (h : findById db userId = some u) :
    ((u.hasPaid || u.isAdmin) = true →
      serverGames db games userId = .ok 200 (sortSGamesByCreatedDesc games)) ∧
    ((u.hasPaid || u.isAdmin) = false →
      serverGames db games userId
        = .ok 200 (sortSGamesByCreatedDesc (games.filter (fun g => !g.isVip)))) ∧
    routerGetAllGames [vipTipsGame] = .ok 200 [vipTipsGame] := by
  refine ⟨?_, ?_, by decide⟩
  · intro hv; simp [serverGames, h, hv]
  · intro hv; simp [serverGames, h, hv]

/-- C7, witnessed at a free user. -/
theorem c7_games_visibility_witness :
    ((freeUser.hasPaid || freeUser.isAdmin) = false →
      serverGames [freeUser] [] 1
        = .ok 200 (sortSGamesByCreatedDesc (List.filter (fun g => !g.isVip) []))) ∧
    routerGetAllGames [vipTipsGame] = .ok 200 [vipTipsGame] :=
  ⟨(c7_games_visibility [freeUser] [] 1 freeUser (by decide)).2.1,
   (c7_games_visibility [freeUser] [] 1 freeUser (by decide)).2.2⟩

/-! ### C9 -/

/-- C9: the startup bootstrap (`createDefaultAdmin`, part_002, run once on
the database-open event): with no `admin` account it appends exactly one
record carrying `isAdmin = hasPaid = isActive = true` and the hash of the
fixed default password; with an existing `admin` it changes nothing; and
running it twice equals running it once. -/
theorem c9_bootstrap_default_admin (db : Db) (newId now n2 t2 : Nat) :
    (findByUsername db "admin" = none →
      createDefaultAdmin db newId now = db ++ [defaultAdminUser newId now]) ∧
    ((defaultAdminUser newId now).isAdmin = true ∧
     (defaultAdminUser newId now).hasPaid = true ∧
     (defaultAdminUser newId now).isActive = true ∧
     (defaultAdminUser newId now).password = bcryptHash "admin123") ∧
    (∀ u, findByUsername db "admin" = some u →
      createDefaultAdmin db newId now = db) ∧
    createDefaultAdmin (createDefaultAdmin db newId now) n2 t2
      = createDefaultAdmin db newId now := by
  refine ⟨?_, ⟨rfl, rfl, rfl, rfl⟩, ?_, ?_⟩
  · intro hnone; rw [createDefaultAdmin, hnone]
  · intro u hsome; rw [createDefaultAdmin, hsome]
  · cases hf : findByUsername db "admin" with
    | some w =>
      have hinner : createDefaultAdmin db newId now = db := by
        rw [createDefaultAdmin, hf]
      rw [hinner, createDefaultAdmin, hf]
    | none =>
      have hinner : createDefaultAdmin db newId now
          = db ++ [defaultAdminUser newId now] := by
        rw [createDefaultAdmin, hf]
      have happ : findByUsername (db ++ [defaultAdminUser newId now]) "admin"
          = some (defaultAdminUser newId now) := by
        rw [findByUsername, List.find?_append]
        rw [findByUsername] at hf
        simp [hf, defaultAdminUser]
      rw [hinner, createDefaultAdmin, happ]

/-- C9, witnessed on the empty store and on a store that already has the
admin. -/
theorem c9_bootstrap_default_admin_witness :
    createDefaultAdmin [] 1 5 = [] ++ [defaultAdminUser 1 5] ∧
    createDefaultAdmin (createDefaultAdmin [] 1 5) 2 6 = createDefaultAdmin [] 1 5 :=
  ⟨(c9_bootstrap_default_admin [] 1 5 2 6).1 (by decide),
   (c9_bootstrap_default_admin [] 1 5 2 6).2.2.2⟩

/-! ### C4 -/

/-- C4: a non-admin caller is answered 403 by every admin-only operation of
both apps — game create/delete/result-update, user listing, stats,
block/unblock, VIP grant/revoke, temporary-password issuance, and the
admin post delete — whatever the rest of the payload, valid or not: in
every handler the admin gate runs before any validation. -/
theorem c4_non_admin_forbidden (db : Db) (userId : Nat) (u : User)
    (h : findById db userId = some u) (hna : u.isAdmin = false) :
    (∀ games newId b now, serverCreateGame db games userId newId b now
        = (.err 403 "Admin access required", games)) ∧
    (∀ games gameId, serverDeleteGame db games userId gameId
        = (.err 403 "Admin access required", games)) ∧
    (∀ games gameId body, serverUpdateResult db games userId gameId body
        = (.err 403 "Admin access required", games)) ∧
    serverListUsers db userId = .err 403 "Admin access required" ∧
    (∀ targetId blocked, serverBlockUser db userId targetId blocked
        = (.err 403 "Admin access required", db)) ∧
    (∀ targetId hasPaid now, serverVipUpdate db userId targetId hasPaid now
        = (.err 403 "Admin access required", db)) ∧
    (∀ targetId rand, serverGenerateTempPassword db userId targetId rand
        = (.err 403 "Admin access required", db)) ∧
    adminListUsers db userId = .err 403 "Access denied. Admin only." ∧
    (∀ targetId hasPaid now, adminVipUpdate db userId targetId hasPaid now
        = (.err 403 "Access denied. Admin only.", db)) ∧
    adminStats db userId = .err 403 "Access denied. Admin only." ∧
    (∀ games b, routerCreateGame db games userId b
        = (.err 403 "Access denied. Admin only.", games)) ∧
    (∀ games gameId result, routerUpdateResult db games userId gameId result
        = (.err 403 "Access denied. Admin only.", games)) ∧
    (∀ games gameId, routerDeleteGame db games userId gameId
        = (.err 403 "Access denied. Admin only.", games)) ∧
    (∀ games, routerGamesStats db games userId
        = .err 403 "Access denied. Admin only.") ∧
    (∀ posts postId, communityDeletePost db posts userId postId
        = (.err 403 "Access denied. Admin only.", posts)) := by
  refine ⟨fun games newId b now => ?_, fun games gameId => ?_,
    fun games gameId body => ?_, ?_, fun targetId blocked => ?_,
    fun targetId hasPaid now => ?_, fun targetId rand => ?_, ?_,
    fun targetId hasPaid now => ?_, ?_, fun games b => ?_,
    fun games gameId result => ?_, fun games gameId => ?_, fun games => ?_,
    fun posts postId => ?_⟩ <;>
    simp [serverCreateGame, serverDeleteGame, serverUpdateResult,
      serverListUsers, serverBlockUser, serverVipUpdate,
      serverGenerateTempPassword, adminListUsers, adminVipUpdate, adminStats,
      routerCreateGame, routerUpdateResult, routerDeleteGame, routerGamesStats,
      communityDeletePost, isAdminGate, h, hna]

/-- C4, witnessed: the non-admin `fan` is refused a VIP grant on an
arbitrary payload. -/
theorem c4_non_admin_forbidden_witness :
    serverVipUpdate [freeUser] 1 1 true 99
      = (.err 403 "Admin access required", [freeUser]) :=
  (c4_non_admin_forbidden [freeUser] 1 freeUser (by decide)
    (by decide)).2.2.2.2.2.1 1 true 99

/-! ### C8 -/

/-- C8: a successful admin temp-password issuance returns the plaintext
code — a numeric string in 100000–999999 — in that one response, stores
only its bcrypt hash as the target's credential (the hash differs from the
plaintext, and a store holding only hashes still holds only hashes
afterwards, so the plaintext is in no stored record), and raises the
target's `needsPasswordChange` flag. -/
theorem c8_temp_password_issuance (db : Db) (adminId targetId rand : Nat)
    (admin target : User)
    (hadmin : findById db adminId = some admin)
    (hisadmin : admin.isAdmin = true)
    (htarget : findById db targetId = some target)
    (hhashed : HashedDb db) :
    (serverGenerateTempPassword db adminId targetId rand).1
      = .ok 200 { message := "Temporary password generated successfully"
                  tempPassword := toString (100000 + rand % 900000)
                  user := ({ target with
                             password := bcryptHash (toString (100000 + rand % 900000))
                             needsPasswordChange := true } : User).toView } ∧
    100000 ≤ 100000 + rand % 900000 ∧
    100000 + rand % 900000 ≤ 999999 ∧
    findById (serverGenerateTempPassword db adminId targetId rand).2 targetId
      = some { target with
               password := bcryptHash (toString (100000 + rand % 900000))
               needsPasswordChange := true } ∧
    HashedDb (serverGenerateTempPassword db adminId targetId rand).2 ∧
    bcryptHash (toString (100000 + rand % 900000))
      ≠ toString (100000 + rand % 900000) := by
  have hdb2 : (serverGenerateTempPassword db adminId targetId rand).2
      = findByIdAndUpdate db targetId
          (fun v => { v with
                      password := bcryptHash (toString (100000 + rand % 900000))
                      needsPasswordChange := true }) := by
    simp [serverGenerateTempPassword, hadmin, hisadmin, htarget]
  refine ⟨?_, Nat.le_add_right _ _, ?_, ?_, ?_, bcryptHash_ne _⟩
  · simp [serverGenerateTempPassword, hadmin, hisadmin, htarget]
  · have hm : rand % 900000 < 900000 := Nat.mod_lt rand (by norm_num)
    omega
  · rw [hdb2]
    exact findById_update_self
      (f := fun v => { v with
                       password := bcryptHash (toString (100000 + rand % 900000))
                       needsPasswordChange := true })
      (fun v => rfl) htarget
  · rw [hdb2]
    intro u2 hmem
    rcases mem_findByIdAndUpdate hmem with hin | ⟨v, hv, rfl⟩
    · exact hhashed u2 hin
    · exact ⟨toString (100000 + rand % 900000), rfl⟩

/-- C8, witnessed: issuing a code to `fan` stores exactly the hash of the
generated code and raises the forced-change flag. -/
theorem c8_temp_password_issuance_witness :
    findById (serverGenerateTempPassword [adminUser, freeUser] 2 1 451234).2 1
      = some { freeUser with
               password := bcryptHash (toString (100000 + 451234 % 900000))
               needsPasswordChange := true } :=
  (c8_temp_password_issuance [adminUser, freeUser] 2 1 451234 adminUser freeUser
    (by decide) (by decide) (by decide)
    (by
      intro v hv
      simp only [List.mem_cons, List.mem_singleton, List.not_mem_nil, or_false] at hv
      rcases hv with rfl | rfl
      · exact ⟨"rootpw99", rfl⟩
      · exact ⟨"pw123456", rfl⟩)).2.2.2.1
